import Mathlib

/-!
Shallow embedding of the Taskdown synchronization engine and local
database service (src/lib/sync.ts and src/lib/db.ts).

Modelling conventions:
- Timestamps (JS Date values, compared via getTime()) are Nat milliseconds.
- Calendar dates (the YYYY-MM-DD strings stored in Task.date) are Nat day
  indices; JS Date day arithmetic (setDate(getDate()+n) on a UTC-midnight
  date followed by toISOString().split('T')[0]) becomes addition of n.
- A TypeScript Partial object is a structure whose every field is wrapped
  in Option: some v means the key is present with value v (possibly the
  inner none, matching an explicitly-undefined value, which a store update
  applies by clearing the field), none means the key is absent.
- new Date() calls take their value from an explicit clock parameter
  (named now); one pass of an operation happens at a single clock value.
- Remote-store (PocketBase) calls are recorded as events in a trace; the
  outcome of a remote create is supplied by a parameter
  createRes : Task -> Option String (some id on success, none when the
  call rejects/throws), per the Remote Client contract of the spec.
- Fallible code returns Except String.
-/

namespace Taskdown

/-- JS timestamp in milliseconds (Date.getTime()). -/
abbrev Time := Nat

/-- Recurrence values of a task: 'none' | 'daily' | 'weekly' | 'custom'. -/
inductive Recurrence where
  | none
  | daily
  | weekly
  | custom
deriving DecidableEq, Repr

/-- Local Task record (interface Task in db.ts). -/
structure Task where
  id : Option Nat := Option.none
  title : String
  date : Option Nat := Option.none
  time : Option String := Option.none
  tags : List String
  createdAt : Time
  updatedAt : Time
  done : Bool
  usageCount : Option Nat := Option.none
  recurrence : Option Recurrence := Option.none
  remoteId : Option String := Option.none
  synced : Option Bool := Option.none
  lastSyncAt : Option Time := Option.none
deriving DecidableEq, Repr

/-- Local Note record (interface Note in db.ts). -/
structure Note where
  id : Option Nat := Option.none
  title : String
  content : String
  createdAt : Time
  updatedAt : Time
  remoteId : Option String := Option.none
  synced : Option Bool := Option.none
  lastSyncAt : Option Time := Option.none
deriving DecidableEq, Repr

/-- PocketBase task record (interface PBTask in sync.ts). The wire
recurrence string is modelled by the parsed enum. -/
structure PBTask where
  id : Option String := Option.none
  title : String
  date : Option Nat := Option.none
  time : Option String := Option.none
  tags : List String
  done : Bool
  usageCount : Option Nat := Option.none
  recurrence : Option Recurrence := Option.none
  created : Option Time := Option.none
  updated : Option Time := Option.none
deriving DecidableEq, Repr

/-- PocketBase note record (interface PBNote in sync.ts). -/
structure PBNote where
  id : Option String := Option.none
  title : String
  content : String
  created : Option Time := Option.none
  updated : Option Time := Option.none
deriving DecidableEq, Repr

/-- A Partial update object for a task, as accepted by
DatabaseService.updateTask (Partial of Task without id and createdAt in
the declared type; createdAt is kept because taskFromRemote passes it at
runtime and the store applies it; the id key is omitted since the only
call site passes the record's own id, making it a no-op). -/
structure TaskPatch where
  title : Option String := Option.none
  date : Option (Option Nat) := Option.none
  time : Option (Option String) := Option.none
  tags : Option (List String) := Option.none
  done : Option Bool := Option.none
  usageCount : Option (Option Nat) := Option.none
  recurrence : Option (Option Recurrence) := Option.none
  createdAt : Option Time := Option.none
  updatedAt : Option Time := Option.none
  remoteId : Option (Option String) := Option.none
  synced : Option (Option Bool) := Option.none
  lastSyncAt : Option (Option Time) := Option.none
deriving DecidableEq, Repr

/-- A Partial update object for a note (DatabaseService.updateNote). -/
structure NotePatch where
  title : Option String := Option.none
  content : Option String := Option.none
  createdAt : Option Time := Option.none
  updatedAt : Option Time := Option.none
  remoteId : Option (Option String) := Option.none
  synced : Option (Option Bool) := Option.none
  lastSyncAt : Option (Option Time) := Option.none
deriving DecidableEq, Repr

/-- Argument of DatabaseService.createTask: a task without id, createdAt,
updatedAt (Omit of Task). -/
structure NewTask where
  title : String
  date : Option Nat := Option.none
  time : Option String := Option.none
  tags : List String
  done : Bool
  usageCount : Option Nat := Option.none
  recurrence : Option Recurrence := Option.none
  remoteId : Option String := Option.none
  synced : Option Bool := Option.none
  lastSyncAt : Option Time := Option.none
deriving DecidableEq, Repr

/-- Argument of DatabaseService.createNote. -/
structure NewNote where
  title : String
  content : String
  remoteId : Option String := Option.none
  synced : Option Bool := Option.none
  lastSyncAt : Option Time := Option.none
deriving DecidableEq, Repr

/-- The tasks table of the local Dexie database, with its auto-increment
counter. -/
structure LocalDB where
  tasks : List Task
  nextId : Nat
deriving DecidableEq, Repr

/-- The notes table of the local Dexie database. -/
structure NotesDB where
  notes : List Note
  nextId : Nat
deriving DecidableEq, Repr

/-- Spread of a TaskPatch over a task: present keys overwrite the field
(the three dots spread in updateTask), absent keys keep it. -/
def applyTaskPatch (t : Task) (p : TaskPatch) : Task :=
  { t with
    title := p.title.getD t.title
    date := p.date.getD t.date
    time := p.time.getD t.time
    tags := p.tags.getD t.tags
    done := p.done.getD t.done
    usageCount := p.usageCount.getD t.usageCount
    recurrence := p.recurrence.getD t.recurrence
    createdAt := p.createdAt.getD t.createdAt
    updatedAt := p.updatedAt.getD t.updatedAt
    remoteId := p.remoteId.getD t.remoteId
    synced := p.synced.getD t.synced
    lastSyncAt := p.lastSyncAt.getD t.lastSyncAt }

/-- Spread of a NotePatch over a note. -/
def applyNotePatch (n : Note) (p : NotePatch) : Note :=
  { n with
    title := p.title.getD n.title
    content := p.content.getD n.content
    createdAt := p.createdAt.getD n.createdAt
    updatedAt := p.updatedAt.getD n.updatedAt
    remoteId := p.remoteId.getD n.remoteId
    synced := p.synced.getD n.synced
    lastSyncAt := p.lastSyncAt.getD n.lastSyncAt }

/-- DatabaseService.createTask: applies the usageCount and recurrence
defaults (the JS or-with-zero and or-with-none), stamps createdAt and
updatedAt with now, and adds the record under the next auto id. -/
def DatabaseService.createTask (db : LocalDB) (task : NewTask) (now : Time) : LocalDB :=
  { tasks := db.tasks ++ [{
      id := some db.nextId
      title := task.title
      date := task.date
      time := task.time
      tags := task.tags
      createdAt := now
      updatedAt := now
      done := task.done
      usageCount := some (task.usageCount.getD 0)
      recurrence := some (task.recurrence.getD Recurrence.none)
      remoteId := task.remoteId
      synced := task.synced
      lastSyncAt := task.lastSyncAt }]
    nextId := db.nextId + 1 }

/-- DatabaseService.getTask: primary-key lookup. -/
def DatabaseService.getTask (db : LocalDB) (id : Nat) : Option Task :=
  db.tasks.find? fun t => t.id = some id

/-- DatabaseService.updateTask: spreads the updates and overrides
updatedAt with new Date() before writing at the given key. -/
def DatabaseService.updateTask (db : LocalDB) (id : Nat) (updates : TaskPatch)
    (now : Time) : LocalDB :=
  { db with tasks := db.tasks.map fun t =>
      if t.id = some id then applyTaskPatch t { updates with updatedAt := some now } else t }

/-- DatabaseService.calculateNextDate: base date is the task date when
present (a valid date), else today; daily adds one day, weekly and custom
add seven, with a fallback of one day. -/
def DatabaseService.calculateNextDate (currentDate : Option Nat) (recurrence : Recurrence)
    (today : Nat) : Nat :=
  let nextDate := currentDate.getD today
  match recurrence with
  | Recurrence.daily => nextDate + 1
  | Recurrence.weekly => nextDate + 7
  | Recurrence.custom => nextDate + 7
  | Recurrence.none => nextDate + 1

/-- DatabaseService.createRecurringTask: creates the follow-up task for a
completed recurring task. -/
def DatabaseService.createRecurringTask (db : LocalDB) (originalTask : Task)
    (now : Time) (today : Nat) : LocalDB :=
  let nextDate := DatabaseService.calculateNextDate originalTask.date
      (originalTask.recurrence.getD Recurrence.none) today
  DatabaseService.createTask db
    { title := originalTask.title
      date := some nextDate
      time := originalTask.time
      tags := originalTask.tags
      recurrence := some (originalTask.recurrence.getD Recurrence.none)
      usageCount := some 0
      done := false } now

/-- DatabaseService.toggleTaskDone: flips done, bumps usageCount on
completion, and spawns the recurring follow-up task when the completed
task has a recurrence other than none. Throws when the task is absent. -/
def DatabaseService.toggleTaskDone (db : LocalDB) (id : Nat) (now : Time)
    (today : Nat) : Except String LocalDB :=
  match DatabaseService.getTask db id with
  | some task =>
    let updates : TaskPatch :=
      if !task.done then
        { done := some (!task.done), usageCount := some (some (task.usageCount.getD 0 + 1)) }
      else
        { done := some (!task.done) }
    let db1 := DatabaseService.updateTask db id updates now
    let db2 :=
      if !task.done && (task.recurrence.getD Recurrence.none != Recurrence.none) then
        DatabaseService.createRecurringTask db1 task now today
      else db1
    Except.ok db2
  | Option.none => Except.error "Task not found"

/-- DatabaseService.createNote. -/
def DatabaseService.createNote (db : NotesDB) (note : NewNote) (now : Time) : NotesDB :=
  { notes := db.notes ++ [{
      id := some db.nextId
      title := note.title
      content := note.content
      createdAt := now
      updatedAt := now
      remoteId := note.remoteId
      synced := note.synced
      lastSyncAt := note.lastSyncAt }]
    nextId := db.nextId + 1 }

/-- DatabaseService.updateNote: spreads the updates and overrides
updatedAt with new Date(). -/
def DatabaseService.updateNote (db : NotesDB) (id : Nat) (updates : NotePatch)
    (now : Time) : NotesDB :=
  { db with notes := db.notes.map fun n =>
      if n.id = some id then applyNotePatch n { updates with updatedAt := some now } else n }

/-- SyncService.taskToRemote: converts a local task to the PocketBase
shape (id taken from remoteId, usageCount and recurrence defaulted). -/
def SyncService.taskToRemote (task : Task) : PBTask :=
  { id := task.remoteId
    title := task.title
    date := task.date
    time := task.time
    tags := task.tags
    done := task.done
    usageCount := some (task.usageCount.getD 0)
    recurrence := some (task.recurrence.getD Recurrence.none) }

/-- SyncService.taskFromRemote: the Partial task built from a remote
record; every key is present. The created and updated fallbacks and the
lastSyncAt value are new Date() calls, taken from now. The localId
argument becomes the id key of the Partial; DatabaseService.updateTask is
only ever handed the record's own id, so the key is dropped from the
patch (see TaskPatch). -/
def SyncService.taskFromRemote (pbTask : PBTask) (localId : Option Nat)
    (now : Time) : TaskPatch :=
  { remoteId := some pbTask.id
    title := some pbTask.title
    date := some pbTask.date
    time := some pbTask.time
    tags := some pbTask.tags
    done := some pbTask.done
    usageCount := some (some (pbTask.usageCount.getD 0))
    recurrence := some (some (pbTask.recurrence.getD Recurrence.none))
    createdAt := some (pbTask.created.getD now)
    updatedAt := some (pbTask.updated.getD now)
    synced := some (some true)
    lastSyncAt := some (some now) }

/-- The NewTask handed to DatabaseService.createTask when a remote-only
task is materialized locally (taskFromRemote with no local id, cast to
the createTask argument; createTask itself overrides createdAt and
updatedAt). -/
def SyncService.taskFromRemoteNew (pbTask : PBTask) (now : Time) : NewTask :=
  { remoteId := pbTask.id
    title := pbTask.title
    date := pbTask.date
    time := pbTask.time
    tags := pbTask.tags
    done := pbTask.done
    usageCount := some (pbTask.usageCount.getD 0)
    recurrence := some (pbTask.recurrence.getD Recurrence.none)
    synced := some true
    lastSyncAt := some now }

/-- SyncService.noteToRemote. -/
def SyncService.noteToRemote (note : Note) : PBNote :=
  { id := note.remoteId
    title := note.title
    content := note.content }

/-- SyncService.noteFromRemote as a Partial note for updateNote. -/
def SyncService.noteFromRemote (pbNote : PBNote) (localId : Option Nat)
    (now : Time) : NotePatch :=
  { remoteId := some pbNote.id
    title := some pbNote.title
    content := some pbNote.content
    createdAt := some (pbNote.created.getD now)
    updatedAt := some (pbNote.updated.getD now)
    synced := some (some true)
    lastSyncAt := some (some now) }

/-- SyncService.noteFromRemote cast to the createNote argument when a
remote-only note is materialized locally. -/
def SyncService.noteFromRemoteNew (pbNote : PBNote) (now : Time) : NewNote :=
  { remoteId := pbNote.id
    title := pbNote.title
    content := pbNote.content
    synced := some true
    lastSyncAt := some now }

/-- The Partial written by SyncService.markTaskSynced and
SyncService.markNoteSynced: synced true and lastSyncAt now. -/
def markSyncedTaskPatch (now : Time) : TaskPatch :=
  { synced := some (some true), lastSyncAt := some (some now) }

/-- SyncService.markTaskSynced. -/
def SyncService.markTaskSynced (db : LocalDB) (taskId : Nat) (now : Time) : LocalDB :=
  DatabaseService.updateTask db taskId (markSyncedTaskPatch now) now

/-- Note counterpart of markSyncedTaskPatch. -/
def markSyncedNotePatch (now : Time) : NotePatch :=
  { synced := some (some true), lastSyncAt := some (some now) }

/-- SyncService.markNoteSynced. -/
def SyncService.markNoteSynced (db : NotesDB) (noteId : Nat) (now : Time) : NotesDB :=
  DatabaseService.updateNote db noteId (markSyncedNotePatch now) now

/-- The Partial written when a freshly uploaded local task is linked to
the remote id the create call returned. -/
def linkTaskPatch (rid : String) (now : Time) : TaskPatch :=
  { remoteId := some (some rid), synced := some (some true), lastSyncAt := some (some now) }

/-- The Partial linking a freshly uploaded local note to its remote id. -/
def linkNotePatch (rid : String) (now : Time) : NotePatch :=
  { remoteId := some (some rid), synced := some (some true), lastSyncAt := some (some now) }

/-- Observable store operations performed by SyncService.syncTasks, in
program order: remote updates and creates on the PocketBase tasks
collection (a create carries the result the call returned: an assigned id
or none for a rejection), local updates and creates through
DatabaseService, and the console.error log of a failed upload. -/
inductive SyncEvent where
  | pbUpdateTask (rid : String) (payload : PBTask)
  | dbUpdateTask (lid : Nat) (patch : TaskPatch)
  | dbCreateTask (t : NewTask)
  | pbCreateTask (payload : PBTask) (result : Option String)
  | consoleErrorUploadTask
deriving DecidableEq, Repr

/-- Observable store operations performed by SyncService.syncNotes. -/
inductive NoteEvent where
  | pbUpdateNote (rid : String) (payload : PBNote)
  | dbUpdateNote (lid : Nat) (patch : NotePatch)
  | dbCreateNote (n : NewNote)
  | pbCreateNote (payload : PBNote) (result : Option String)
  | consoleErrorUploadNote
deriving DecidableEq, Repr

/-- The localByRemoteId map of syncTasks: built by a forEach of Map.set,
so a lookup returns the last local task carrying the key. -/
def localTaskByRemoteId (localTasks : List Task) (rid : String) : Option Task :=
  (localTasks.filter fun t => t.remoteId = some rid).getLast?

/-- The localByRemoteId map of syncNotes. -/
def localNoteByRemoteId (localNotes : List Note) (rid : String) : Option Note :=
  (localNotes.filter fun n => n.remoteId = some rid).getLast?

/-- One iteration of the syncTasks loop over remote tasks (Case A:
last-write-wins against the matching linked local task; Case B:
materialize a remote-only task locally). Returns the new local store and
the operations performed. -/
def SyncService.syncTaskRemoteStep (lookup : String → Option Task) (now : Time)
    (db : LocalDB) (remoteTask : PBTask) : LocalDB × List SyncEvent :=
  match remoteTask.id with
  | Option.none => (db, [])
  | some rid =>
    match lookup rid with
    | some localTask =>
      let localUpdated := localTask.updatedAt
      let remoteUpdated := (remoteTask.updated.getD 0)
      if localUpdated > remoteUpdated then
        (SyncService.markTaskSynced db (localTask.id.getD 0) now,
         [SyncEvent.pbUpdateTask rid (SyncService.taskToRemote localTask),
          SyncEvent.dbUpdateTask (localTask.id.getD 0) (markSyncedTaskPatch now)])
      else if remoteUpdated > localUpdated then
        let updates := SyncService.taskFromRemote remoteTask localTask.id now
        (DatabaseService.updateTask db (localTask.id.getD 0) updates now,
         [SyncEvent.dbUpdateTask (localTask.id.getD 0) updates])
      else
        (SyncService.markTaskSynced db (localTask.id.getD 0) now,
         [SyncEvent.dbUpdateTask (localTask.id.getD 0) (markSyncedTaskPatch now)])
    | Option.none =>
      let newTask := SyncService.taskFromRemoteNew remoteTask now
      (DatabaseService.createTask db newTask now, [SyncEvent.dbCreateTask newTask])

/-- The syncTasks for-loop over the remote snapshot. -/
def SyncService.syncTasksRemotePhase (lookup : String → Option Task) (now : Time)
    (db : LocalDB) : List PBTask → LocalDB × List SyncEvent
  | [] => (db, [])
  | r :: rs =>
    let step := SyncService.syncTaskRemoteStep lookup now db r
    let rest := SyncService.syncTasksRemotePhase lookup now step.1 rs
    (rest.1, step.2 ++ rest.2)

/-- One iteration of the syncTasks upload loop over local-only tasks
(Case C): try the remote create; on success link the local record to the
returned id; on a rejection log the error and leave the record alone. -/
def SyncService.uploadLocalTaskStep (createRes : Task → Option String) (now : Time)
    (db : LocalDB) (localTask : Task) : LocalDB × List SyncEvent :=
  match createRes localTask with
  | some rid =>
    match localTask.id with
    | some lid =>
      (DatabaseService.updateTask db lid (linkTaskPatch rid now) now,
       [SyncEvent.pbCreateTask (SyncService.taskToRemote localTask) (some rid),
        SyncEvent.dbUpdateTask lid (linkTaskPatch rid now)])
    | Option.none =>
      (db, [SyncEvent.pbCreateTask (SyncService.taskToRemote localTask) (some rid)])
  | Option.none =>
    (db, [SyncEvent.pbCreateTask (SyncService.taskToRemote localTask) Option.none,
          SyncEvent.consoleErrorUploadTask])

/-- The syncTasks upload loop over local-only tasks. -/
def SyncService.syncTasksUploadPhase (createRes : Task → Option String) (now : Time)
    (db : LocalDB) : List Task → LocalDB × List SyncEvent
  | [] => (db, [])
  | t :: ts =>
    let step := SyncService.uploadLocalTaskStep createRes now db t
    let rest := SyncService.syncTasksUploadPhase createRes now step.1 ts
    (rest.1, step.2 ++ rest.2)

/-- SyncService.syncTasks over snapshots of the local store (with its
auto-increment counter) and the remote collection: partitions the local
snapshot by presence of remoteId, processes every remote record against
the snapshot map, then uploads the local-only records. -/
def SyncService.syncTasks (localTasks : List Task) (remoteTasks : List PBTask)
    (nextId : Nat) (createRes : Task → Option String) (now : Time) :
    LocalDB × List SyncEvent :=
  let lookup := localTaskByRemoteId localTasks
  let localWithoutRemote := localTasks.filter fun t => t.remoteId = Option.none
  let phaseAB := SyncService.syncTasksRemotePhase lookup now
      { tasks := localTasks, nextId := nextId } remoteTasks
  let phaseC := SyncService.syncTasksUploadPhase createRes now phaseAB.1 localWithoutRemote
  (phaseC.1, phaseAB.2 ++ phaseC.2)

/-- One iteration of the syncNotes loop over remote notes. -/
def SyncService.syncNoteRemoteStep (lookup : String → Option Note) (now : Time)
    (db : NotesDB) (remoteNote : PBNote) : NotesDB × List NoteEvent :=
  match remoteNote.id with
  | Option.none => (db, [])
  | some rid =>
    match lookup rid with
    | some localNote =>
      let localUpdated := localNote.updatedAt
      let remoteUpdated := (remoteNote.updated.getD 0)
      if localUpdated > remoteUpdated then
        (SyncService.markNoteSynced db (localNote.id.getD 0) now,
         [NoteEvent.pbUpdateNote rid (SyncService.noteToRemote localNote),
          NoteEvent.dbUpdateNote (localNote.id.getD 0) (markSyncedNotePatch now)])
      else if remoteUpdated > localUpdated then
        let updates := SyncService.noteFromRemote remoteNote localNote.id now
        (DatabaseService.updateNote db (localNote.id.getD 0) updates now,
         [NoteEvent.dbUpdateNote (localNote.id.getD 0) updates])
      else
        (SyncService.markNoteSynced db (localNote.id.getD 0) now,
         [NoteEvent.dbUpdateNote (localNote.id.getD 0) (markSyncedNotePatch now)])
    | Option.none =>
      let newNote := SyncService.noteFromRemoteNew remoteNote now
      (DatabaseService.createNote db newNote now, [NoteEvent.dbCreateNote newNote])

/-- The syncNotes for-loop over the remote snapshot. -/
def SyncService.syncNotesRemotePhase (lookup : String → Option Note) (now : Time)
    (db : NotesDB) : List PBNote → NotesDB × List NoteEvent
  | [] => (db, [])
  | r :: rs =>
    let step := SyncService.syncNoteRemoteStep lookup now db r
    let rest := SyncService.syncNotesRemotePhase lookup now step.1 rs
    (rest.1, step.2 ++ rest.2)

/-- One iteration of the syncNotes upload loop over local-only notes. -/
def SyncService.uploadLocalNoteStep (createRes : Note → Option String) (now : Time)
    (db : NotesDB) (localNote : Note) : NotesDB × List NoteEvent :=
  match createRes localNote with
  | some rid =>
    match localNote.id with
    | some lid =>
      (DatabaseService.updateNote db lid (linkNotePatch rid now) now,
       [NoteEvent.pbCreateNote (SyncService.noteToRemote localNote) (some rid),
        NoteEvent.dbUpdateNote lid (linkNotePatch rid now)])
    | Option.none =>
      (db, [NoteEvent.pbCreateNote (SyncService.noteToRemote localNote) (some rid)])
  | Option.none =>
    (db, [NoteEvent.pbCreateNote (SyncService.noteToRemote localNote) Option.none,
          NoteEvent.consoleErrorUploadNote])

/-- The syncNotes upload loop over local-only notes. -/
def SyncService.syncNotesUploadPhase (createRes : Note → Option String) (now : Time)
    (db : NotesDB) : List Note → NotesDB × List NoteEvent
  | [] => (db, [])
  | n :: ns =>
    let step := SyncService.uploadLocalNoteStep createRes now db n
    let rest := SyncService.syncNotesUploadPhase createRes now step.1 ns
    (rest.1, step.2 ++ rest.2)

/-- SyncService.syncNotes over snapshots of the local notes store and the
remote collection. -/
def SyncService.syncNotes (localNotes : List Note) (remoteNotes : List PBNote)
    (nextId : Nat) (createRes : Note → Option String) (now : Time) :
    NotesDB × List NoteEvent :=
  let lookup := localNoteByRemoteId localNotes
  let localWithoutRemote := localNotes.filter fun n => n.remoteId = Option.none
  let phaseAB := SyncService.syncNotesRemotePhase lookup now
      { notes := localNotes, nextId := nextId } remoteNotes
  let phaseC := SyncService.syncNotesUploadPhase createRes now phaseAB.1 localWithoutRemote
  (phaseC.1, phaseAB.2 ++ phaseC.2)

/-- The shared status object (interface SyncStatus in sync.ts). -/
structure SyncStatus where
  isOnline : Bool
  lastSync : Option Time := Option.none
  syncInProgress : Bool
  error : Option String := Option.none
  isEnabled : Bool
  requiresAuth : Bool
deriving DecidableEq, Repr

/-- The environment one sync() call runs against: the settings flag, the
PocketBase client presence, the auth state, the health-check outcome, the
two remote collection fetches (none models a fetch that throws, e.g. a
missing collection), the remote create outcomes, and the clock. -/
structure SyncEnv where
  syncEnabled : Bool
  pbInitialized : Bool
  isAuthenticated : Bool
  healthCheckOk : Bool
  tasksFetch : Option (List PBTask)
  notesFetch : Option (List PBNote)
  createTaskRes : Task → Option String
  createNoteRes : Note → Option String
  now : Time

/-- How one sync() call finished: an early return, a thrown Error with
its message, or normal completion. -/
inductive SyncResult where
  | earlyReturn
  | threw (msg : String)
  | completed
deriving DecidableEq, Repr

/-- Everything observable after one sync() call. -/
structure SyncOutcome where
  result : SyncResult
  status : SyncStatus
  tasksDb : LocalDB
  notesDb : NotesDB
  taskEvents : List SyncEvent
  noteEvents : List NoteEvent
deriving Repr

/-- SyncService.checkConnection: resolves to false with a descriptive
error on the status when the client is missing (sync disabled), the
caller is not authenticated, or the health probe fails; resolves to true
and clears the error when the probe succeeds. It never rejects. -/
def SyncService.checkConnection (env : SyncEnv) (st : SyncStatus) : Bool × SyncStatus :=
  if !env.pbInitialized then
    (false, { st with isOnline := false, error := some "Sync deaktiviert" })
  else if !env.isAuthenticated then
    (false, { st with isOnline := false, error := some "Anmeldung erforderlich" })
  else if env.healthCheckOk then
    (true, { st with isOnline := true, error := Option.none })
  else
    (false, { st with isOnline := false, error := some "PocketBase-Verbindung fehlgeschlagen" })

/-- SyncService.sync: early-returns while a sync is in progress or when
sync is disabled; throws without touching the status when the client is
missing or the caller unauthenticated; otherwise flags syncInProgress,
probes the connection (throwing, with the error recorded on the status,
when it fails), runs both collection reconciliations with per-collection
failures swallowed (Promise.allSettled plus catch), then records lastSync
and clears syncInProgress. -/
def SyncService.sync (env : SyncEnv) (st : SyncStatus) (tasksDb : LocalDB)
    (notesDb : NotesDB) : SyncOutcome :=
  if st.syncInProgress then
    { result := SyncResult.earlyReturn, status := st, tasksDb := tasksDb,
      notesDb := notesDb, taskEvents := [], noteEvents := [] }
  else if !env.syncEnabled then
    { result := SyncResult.earlyReturn, status := st, tasksDb := tasksDb,
      notesDb := notesDb, taskEvents := [], noteEvents := [] }
  else if !env.pbInitialized then
    { result := SyncResult.threw "Sync nicht verfügbar - PocketBase nicht initialisiert",
      status := st, tasksDb := tasksDb, notesDb := notesDb,
      taskEvents := [], noteEvents := [] }
  else if !env.isAuthenticated then
    { result := SyncResult.threw "Anmeldung erforderlich für Synchronisierung",
      status := st, tasksDb := tasksDb, notesDb := notesDb,
      taskEvents := [], noteEvents := [] }
  else
    let st1 := { st with syncInProgress := true, error := Option.none }
    let probe := SyncService.checkConnection env st1
    if !probe.1 then
      let st3 := { probe.2 with error := some "PocketBase-Server nicht verfügbar" }
      { result := SyncResult.threw "PocketBase-Server nicht verfügbar",
        status := { st3 with syncInProgress := false },
        tasksDb := tasksDb, notesDb := notesDb, taskEvents := [], noteEvents := [] }
    else
      let tasksRun :=
        match env.tasksFetch with
        | Option.none => (tasksDb, ([] : List SyncEvent))
        | some remoteTasks =>
          SyncService.syncTasks tasksDb.tasks remoteTasks tasksDb.nextId
            env.createTaskRes env.now
      let notesRun :=
        match env.notesFetch with
        | Option.none => (notesDb, ([] : List NoteEvent))
        | some remoteNotes =>
          SyncService.syncNotes notesDb.notes remoteNotes notesDb.nextId
            env.createNoteRes env.now
      let st3 := { probe.2 with lastSync := some env.now, error := Option.none }
      { result := SyncResult.completed,
        status := { st3 with syncInProgress := false },
        tasksDb := tasksRun.1, notesDb := notesRun.1,
        taskEvents := tasksRun.2, noteEvents := notesRun.2 }

/-! Concrete fixtures used by witnesses and counterexamples. -/

/-- An idle status as published after initialization with sync enabled. -/
def sampleStatus : SyncStatus :=
  { isOnline := false, syncInProgress := false, isEnabled := true, requiresAuth := true }

/-- A remote create that always rejects. -/
def noTaskCreate : Task → Option String := fun _ => Option.none

/-- A remote note create that always rejects. -/
def noNoteCreate : Note → Option String := fun _ => Option.none

/-- 2024-01-02T00:00Z in epoch milliseconds. -/
def jan2msec : Time := 1704153600000

/-- 2024-01-03T00:00Z in epoch milliseconds. -/
def jan3msec : Time := 1704240000000

/-- A clock value strictly after jan3msec, standing for the moment the
reconciliation runs. -/
def syncClock : Time := 1704250000000

/-- The local task of the linked-record scenario: id 2, linked to remote
r9, last updated 2024-01-02, title A. -/
def task2 : Task :=
  { id := some 2, title := "A", tags := [], createdAt := jan2msec,
    updatedAt := jan2msec, done := false, remoteId := some "r9" }

/-- The remote task of the linked-record scenario: id r9, updated
2024-01-03, title B. -/
def remoteR9 : PBTask :=
  { id := some "r9", title := "B", tags := [], done := true, updated := some jan3msec }

/-- An unlinked local task pending upload. -/
def buyMilk : Task :=
  { id := some 1, title := "Buy milk", tags := [], createdAt := 5, updatedAt := 5,
    done := false }

/-- A second unlinked local task, used to show the batch continues past a
failed upload. -/
def secondTask : Task :=
  { id := some 7, title := "Second", tags := [], createdAt := 6, updatedAt := 6,
    done := false }

/-- A create outcome that rejects buyMilk and accepts secondTask. -/
def createFailsFirst : Task → Option String :=
  fun t => if t.id = some 7 then some "rr" else Option.none

/-- A daily recurring task due on day 100. -/
def dailyTask : Task :=
  { id := some 1, title := "Daily exercise", date := some 100, tags := ["health"],
    createdAt := 5, updatedAt := 5, done := false, usageCount := some 0,
    recurrence := some Recurrence.daily }

/-- An environment with sync administratively disabled. -/
def envDisabled : SyncEnv :=
  { syncEnabled := false, pbInitialized := false, isAuthenticated := false,
    healthCheckOk := false, tasksFetch := Option.none, notesFetch := Option.none,
    createTaskRes := noTaskCreate, createNoteRes := noNoteCreate, now := 99 }

/-- An environment where sync is enabled and authenticated but the server
health probe fails. -/
def envUnreachable : SyncEnv :=
  { syncEnabled := true, pbInitialized := true, isAuthenticated := true,
    healthCheckOk := false, tasksFetch := Option.none, notesFetch := Option.none,
    createTaskRes := noTaskCreate, createNoteRes := noNoteCreate, now := 500 }

/-- A healthy environment where the tasks collection fetch yields the
linked-record scenario and the notes collection fetch throws (the remote
notes collection is absent). -/
def envNotesMissing : SyncEnv :=
  { syncEnabled := true, pbInitialized := true, isAuthenticated := true,
    healthCheckOk := true, tasksFetch := some [remoteR9], notesFetch := Option.none,
    createTaskRes := noTaskCreate, createNoteRes := noNoteCreate, now := syncClock }

/-! Claim theorems. -/

/-- C5: calling sync() while a sync is already in progress returns
immediately: the status, both stores and the event traces are untouched,
no reconciliation pass starts, and nothing is thrown. -/
theorem C5_no_concurrent_sync (env : SyncEnv) (st : SyncStatus) (tasksDb : LocalDB)
    (notesDb : NotesDB) (h : st.syncInProgress = true) :
    SyncService.sync env st tasksDb notesDb =
      { result := SyncResult.earlyReturn, status := st, tasksDb := tasksDb,
        notesDb := notesDb, taskEvents := [], noteEvents := [] } := by
  simp [SyncService.sync, h]

/-- Witness for C5 at a concrete in-progress status. -/
theorem C5_witness :
    SyncService.sync envDisabled { sampleStatus with syncInProgress := true }
      ⟨[task2], 3⟩ ⟨[], 1⟩ =
      { result := SyncResult.earlyReturn,
        status := { sampleStatus with syncInProgress := true },
        tasksDb := ⟨[task2], 3⟩, notesDb := ⟨[], 1⟩,
        taskEvents := [], noteEvents := [] } :=
  C5_no_concurrent_sync envDisabled { sampleStatus with syncInProgress := true }
    ⟨[task2], 3⟩ ⟨[], 1⟩ rfl

/-- C3 counterexample: with sync disabled, sync() is a silent early
return. The status object is left exactly as it was, its error field is
none, and nothing is thrown, so this gating failure is not surfaced as an
Error state with a message, contrary to the claim. -/
theorem C3_counterexample :
    (SyncService.sync envDisabled sampleStatus ⟨[], 1⟩ ⟨[], 1⟩).result =
        SyncResult.earlyReturn ∧
      (SyncService.sync envDisabled sampleStatus ⟨[], 1⟩ ⟨[], 1⟩).status = sampleStatus ∧
      (SyncService.sync envDisabled sampleStatus ⟨[], 1⟩ ⟨[], 1⟩).status.error =
        Option.none := by
  refine ⟨rfl, rfl, rfl⟩

/-- C3 amended: every gating failure aborts the sync attempt before any
collection is touched (stores unchanged, no store events), but only the
unreachable-server failure is surfaced on the status object: sync
disabled gives a silent early return with no error; a missing client or
an unauthenticated caller throws out of sync() without updating the
status; an unreachable server throws and records its message on the
status with syncInProgress cleared. -/
theorem C3_gating_failures (env : SyncEnv) (st : SyncStatus) (tasksDb : LocalDB)
    (notesDb : NotesDB) (hIdle : st.syncInProgress = false) :
    (env.syncEnabled = false →
      SyncService.sync env st tasksDb notesDb =
        { result := SyncResult.earlyReturn, status := st, tasksDb := tasksDb,
          notesDb := notesDb, taskEvents := [], noteEvents := [] }) ∧
    (env.syncEnabled = true → env.pbInitialized = false →
      SyncService.sync env st tasksDb notesDb =
        { result := SyncResult.threw "Sync nicht verfügbar - PocketBase nicht initialisiert",
          status := st, tasksDb := tasksDb, notesDb := notesDb,
          taskEvents := [], noteEvents := [] }) ∧
    (env.syncEnabled = true → env.pbInitialized = true → env.isAuthenticated = false →
      SyncService.sync env st tasksDb notesDb =
        { result := SyncResult.threw "Anmeldung erforderlich für Synchronisierung",
          status := st, tasksDb := tasksDb, notesDb := notesDb,
          taskEvents := [], noteEvents := [] }) ∧
    (env.syncEnabled = true → env.pbInitialized = true → env.isAuthenticated = true →
      env.healthCheckOk = false →
      SyncService.sync env st tasksDb notesDb =
        { result := SyncResult.threw "PocketBase-Server nicht verfügbar",
          status := { st with isOnline := false, syncInProgress := false,
                              error := some "PocketBase-Server nicht verfügbar" },
          tasksDb := tasksDb, notesDb := notesDb,
          taskEvents := [], noteEvents := [] }) := by
  refine ⟨?_, ?_, ?_, ?_⟩
  · intro h1
    simp [SyncService.sync, hIdle, h1]
  · intro h1 h2
    simp [SyncService.sync, hIdle, h1, h2]
  · intro h1 h2 h3
    simp [SyncService.sync, hIdle, h1, h2, h3]
  · intro h1 h2 h3 h4
    simp [SyncService.sync, SyncService.checkConnection, hIdle, h1, h2, h3, h4]

/-- Witness for C3 on the unreachable-server gating failure. -/
theorem C3_witness :
    SyncService.sync envUnreachable sampleStatus ⟨[], 1⟩ ⟨[], 1⟩ =
      { result := SyncResult.threw "PocketBase-Server nicht verfügbar",
        status := { sampleStatus with isOnline := false, syncInProgress := false,
                                      error := some "PocketBase-Server nicht verfügbar" },
        tasksDb := ⟨[], 1⟩, notesDb := ⟨[], 1⟩,
        taskEvents := [], noteEvents := [] } :=
  (C3_gating_failures envUnreachable sampleStatus ⟨[], 1⟩ ⟨[], 1⟩ rfl).2.2.2
    rfl rfl rfl rfl

/-- C4: with the gates passing, if one collection fetch throws (here the
absent remote notes collection) the other collection is still fully
reconciled, the failure does not escape sync(), and the run finishes
idle: completed result, error cleared, syncInProgress false and lastSync
set to the run time. The symmetric case (tasks fetch throws) holds the
same way. -/
theorem C4_partial_failure_isolation (env : SyncEnv) (st : SyncStatus)
    (tasksDb : LocalDB) (notesDb : NotesDB) (hIdle : st.syncInProgress = false)
    (hEn : env.syncEnabled = true) (hPb : env.pbInitialized = true)
    (hAuth : env.isAuthenticated = true) (hHealth : env.healthCheckOk = true) :
    (∀ remoteTasks, env.tasksFetch = some remoteTasks → env.notesFetch = Option.none →
      SyncService.sync env st tasksDb notesDb =
        { result := SyncResult.completed,
          status := { st with isOnline := true, syncInProgress := false,
                              lastSync := some env.now, error := Option.none },
          tasksDb := (SyncService.syncTasks tasksDb.tasks remoteTasks tasksDb.nextId
              env.createTaskRes env.now).1,
          notesDb := notesDb,
          taskEvents := (SyncService.syncTasks tasksDb.tasks remoteTasks tasksDb.nextId
              env.createTaskRes env.now).2,
          noteEvents := [] }) ∧
    (∀ remoteNotes, env.notesFetch = some remoteNotes → env.tasksFetch = Option.none →
      SyncService.sync env st tasksDb notesDb =
        { result := SyncResult.completed,
          status := { st with isOnline := true, syncInProgress := false,
                              lastSync := some env.now, error := Option.none },
          tasksDb := tasksDb,
          notesDb := (SyncService.syncNotes notesDb.notes remoteNotes notesDb.nextId
              env.createNoteRes env.now).1,
          taskEvents := [],
          noteEvents := (SyncService.syncNotes notesDb.notes remoteNotes notesDb.nextId
              env.createNoteRes env.now).2 }) := by
  constructor
  · intro remoteTasks hT hN
    simp [SyncService.sync, SyncService.checkConnection, hIdle, hEn, hPb, hAuth,
      hHealth, hT, hN]
  · intro remoteNotes hN hT
    simp [SyncService.sync, SyncService.checkConnection, hIdle, hEn, hPb, hAuth,
      hHealth, hT, hN]

/-- Witness for C4: the notes collection is absent while the tasks
collection holds the linked-record scenario; the sync completes idle with
the task reconciled. -/
theorem C4_witness :
    SyncService.sync envNotesMissing sampleStatus ⟨[task2], 3⟩ ⟨[], 1⟩ =
      { result := SyncResult.completed,
        status := { sampleStatus with isOnline := true, syncInProgress := false,
                                      lastSync := some syncClock, error := Option.none },
        tasksDb := (SyncService.syncTasks [task2] [remoteR9] 3 noTaskCreate syncClock).1,
        notesDb := ⟨[], 1⟩,
        taskEvents := (SyncService.syncTasks [task2] [remoteR9] 3 noTaskCreate syncClock).2,
        noteEvents := [] } :=
  (C4_partial_failure_isolation envNotesMissing sampleStatus ⟨[task2], 3⟩ ⟨[], 1⟩
    rfl rfl rfl rfl rfl).1 [remoteR9] rfl rfl

/-- C7: checkConnection is total (modelled as a plain function, it never
throws) and on each failure path resolves to false with a descriptive
error message on the status: missing client, unauthenticated caller, or
failed health probe; a successful probe resolves to true with the error
cleared and isOnline set. -/
theorem C7_checkConnection_total (env : SyncEnv) (st : SyncStatus) :
    (env.pbInitialized = false →
      SyncService.checkConnection env st =
        (false, { st with isOnline := false, error := some "Sync deaktiviert" })) ∧
    (env.pbInitialized = true → env.isAuthenticated = false →
      SyncService.checkConnection env st =
        (false, { st with isOnline := false, error := some "Anmeldung erforderlich" })) ∧
    (env.pbInitialized = true → env.isAuthenticated = true → env.healthCheckOk = false →
      SyncService.checkConnection env st =
        (false, { st with isOnline := false,
                          error := some "PocketBase-Verbindung fehlgeschlagen" })) ∧
    (env.pbInitialized = true → env.isAuthenticated = true → env.healthCheckOk = true →
      SyncService.checkConnection env st =
        (true, { st with isOnline := true, error := Option.none })) ∧
    ((SyncService.checkConnection env st).1 = false →
      ∃ msg, (SyncService.checkConnection env st).2.error = some msg) := by
  refine ⟨?_, ?_, ?_, ?_, ?_⟩
  · intro h1
    simp [SyncService.checkConnection, h1]
  · intro h1 h2
    simp [SyncService.checkConnection, h1, h2]
  · intro h1 h2 h3
    simp [SyncService.checkConnection, h1, h2, h3]
  · intro h1 h2 h3
    simp [SyncService.checkConnection, h1, h2, h3]
  · intro hFalse
    by_cases h1 : env.pbInitialized
    · by_cases h2 : env.isAuthenticated
      · by_cases h3 : env.healthCheckOk
        · exfalso
          simp [SyncService.checkConnection, h1, h2, h3] at hFalse
        · exact ⟨"PocketBase-Verbindung fehlgeschlagen",
            by simp [SyncService.checkConnection, h1, h2, h3]⟩
      · exact ⟨"Anmeldung erforderlich", by simp [SyncService.checkConnection, h1, h2]⟩
    · exact ⟨"Sync deaktiviert", by simp [SyncService.checkConnection, h1]⟩

/-- Witness for C7 on the failed-probe path. -/
theorem C7_witness :
    SyncService.checkConnection envUnreachable sampleStatus =
      (false, { sampleStatus with isOnline := false,
                                  error := some "PocketBase-Verbindung fehlgeschlagen" }) :=
  (C7_checkConnection_total envUnreachable sampleStatus).2.2.1 rfl rfl rfl

/-- Applying a task patch never changes the primary key. -/
theorem applyTaskPatch_id (t : Task) (p : TaskPatch) : (applyTaskPatch t p).id = t.id := rfl

/-- Applying a note patch never changes the primary key. -/
theorem applyNotePatch_id (n : Note) (p : NotePatch) : (applyNotePatch n p).id = n.id := rfl

/-- A membership-based update lemma shared by the C9 conjuncts: after
updateTask, any stored task carrying the written key has updatedAt equal
to the write time. -/
theorem updateTask_updatedAt (db : LocalDB) (id : Nat) (p : TaskPatch) (now : Time) :
    ∀ t ∈ (DatabaseService.updateTask db id p now).tasks, t.id = some id →
      t.updatedAt = now := by
  intro t ht hid
  simp only [DatabaseService.updateTask, List.mem_map] at ht
  obtain ⟨a, _, rfl⟩ := ht
  by_cases h : a.id = some id
  · simp [h, applyTaskPatch]
  · simp only [if_neg h] at hid
    exact absurd hid h

/-- C9: the local store update operations stamp updatedAt with the time
of the call, overriding any updatedAt carried by the update object, for
tasks, for notes, and hence also for the sync-metadata-only write of
markTaskSynced. -/
theorem C9_updates_refresh_updatedAt (db : LocalDB) (ndb : NotesDB) (id : Nat)
    (p : TaskPatch) (np : NotePatch) (now : Time) :
    (∀ t ∈ (DatabaseService.updateTask db id p now).tasks, t.id = some id →
      t.updatedAt = now) ∧
    (∀ n ∈ (DatabaseService.updateNote ndb id np now).notes, n.id = some id →
      n.updatedAt = now) ∧
    (∀ t ∈ (SyncService.markTaskSynced db id now).tasks, t.id = some id →
      t.updatedAt = now) := by
  refine ⟨updateTask_updatedAt db id p now, ?_, ?_⟩
  · intro n hn hid
    simp only [DatabaseService.updateNote, List.mem_map] at hn
    obtain ⟨a, _, rfl⟩ := hn
    by_cases h : a.id = some id
    · simp [h, applyNotePatch]
    · simp only [if_neg h] at hid
      exact absurd hid h
  · exact updateTask_updatedAt db id (markSyncedTaskPatch now) now

/-- A patch whose updatedAt key explicitly carries a stale time. -/
def stalePatch : TaskPatch := { updatedAt := some 12345 }

/-- The record task2 ends up as when stalePatch is written at time 777. -/
def task2AfterStalePatch : Task := applyTaskPatch task2 { stalePatch with updatedAt := some 777 }

/-- Witness for C9: writing a patch that carries updatedAt 12345 at time
777 leaves the record with updatedAt 777. -/
theorem C9_witness :
    task2AfterStalePatch ∈ (DatabaseService.updateTask ⟨[task2], 3⟩ 2 stalePatch 777).tasks ∧
      task2AfterStalePatch.id = some 2 ∧ task2AfterStalePatch.updatedAt = 777 :=
  ⟨by decide, by decide,
    (C9_updates_refresh_updatedAt ⟨[task2], 3⟩ ⟨[], 1⟩ 2 stalePatch {} 777).1
      task2AfterStalePatch (by decide) (by decide)⟩

/-- Lookup in a one-element snapshot map hits its entry. -/
theorem localTaskByRemoteId_single (l : Task) (rid : String) (h : l.remoteId = some rid) :
    localTaskByRemoteId [l] rid = some l := by
  simp [localTaskByRemoteId, h]

/-- The record a linked local task becomes when the reconciler pulls the
strictly newer remote copy: remote payload, createdAt from the remote
created time, updatedAt stamped by the store with the reconciliation
time. -/
def pulledTask (l : Task) (r : PBTask) (now : Time) : Task :=
  { id := l.id
    title := r.title
    date := r.date
    time := r.time
    tags := r.tags
    createdAt := r.created.getD now
    updatedAt := now
    done := r.done
    usageCount := some (r.usageCount.getD 0)
    recurrence := some (r.recurrence.getD Recurrence.none)
    remoteId := r.id
    synced := some true
    lastSyncAt := some now }

/-- Writing the taskFromRemote patch through updateTask produces exactly
pulledTask. -/
theorem applyTaskPatch_fromRemote (l : Task) (r : PBTask) (li : Option Nat) (now : Time) :
    applyTaskPatch l { SyncService.taskFromRemote r li now with updatedAt := some now } =
      pulledTask l r now := rfl

/-- Writing the markTaskSynced patch through updateTask only sets synced,
lastSyncAt and the stamped updatedAt. -/
theorem applyTaskPatch_markSynced (l : Task) (now : Time) :
    applyTaskPatch l { markSyncedTaskPatch now with updatedAt := some now } =
      { l with updatedAt := now, synced := some true, lastSyncAt := some now } := rfl

/-- Reconciling a single linked pair whose remote side is strictly newer:
the local store is overwritten with pulledTask and the only operation is
that one local write. -/
theorem syncTasks_single_remote_newer (l : Task) (r : PBTask) (rid : String)
    (lid nextId : Nat) (createRes : Task → Option String) (now : Time)
    (hL : l.remoteId = some rid) (hR : r.id = some rid) (hId : l.id = some lid)
    (hLt : l.updatedAt < r.updated.getD 0) :
    SyncService.syncTasks [l] [r] nextId createRes now =
      (⟨[pulledTask l r now], nextId⟩,
       [SyncEvent.dbUpdateTask lid (SyncService.taskFromRemote r (some lid) now)]) := by
  have hgt : ¬ (l.updatedAt > r.updated.getD 0) := Nat.lt_asymm hLt
  have hlook : localTaskByRemoteId [l] rid = some l := localTaskByRemoteId_single l rid hL
  simp [SyncService.syncTasks, SyncService.syncTasksRemotePhase,
    SyncService.syncTaskRemoteStep, SyncService.syncTasksUploadPhase, hR, hlook, hgt, hLt,
    hL, hId, DatabaseService.updateTask, applyTaskPatch_fromRemote]

/-- Reconciling a single linked pair whose local side is strictly newer:
the local payload is pushed to the remote collection and the local record
is marked synced with updatedAt stamped anew. -/
theorem syncTasks_single_local_newer (l : Task) (r : PBTask) (rid : String)
    (lid nextId : Nat) (createRes : Task → Option String) (now : Time)
    (hL : l.remoteId = some rid) (hR : r.id = some rid) (hId : l.id = some lid)
    (hGt : r.updated.getD 0 < l.updatedAt) :
    SyncService.syncTasks [l] [r] nextId createRes now =
      (⟨[{ l with updatedAt := now, synced := some true, lastSyncAt := some now }], nextId⟩,
       [SyncEvent.pbUpdateTask rid (SyncService.taskToRemote l),
        SyncEvent.dbUpdateTask lid (markSyncedTaskPatch now)]) := by
  have hlook : localTaskByRemoteId [l] rid = some l := localTaskByRemoteId_single l rid hL
  simp [SyncService.syncTasks, SyncService.syncTasksRemotePhase,
    SyncService.syncTaskRemoteStep, SyncService.syncTasksUploadPhase, hR, hlook, hGt,
    hL, hId, SyncService.markTaskSynced, DatabaseService.updateTask,
    applyTaskPatch_markSynced]

/-- C1 amended: for a linked record present on both sides with the remote
strictly newer, one reconciliation overwrites the local record with the
remote payload and sets synced true and lastSyncAt to the run time, but
updatedAt becomes the reconciliation time (the store stamps it), not the
remote updated timestamp. -/
theorem C1_remote_newer_pull (l : Task) (r : PBTask) (rid : String) (lid nextId : Nat)
    (createRes : Task → Option String) (now : Time)
    (hL : l.remoteId = some rid) (hR : r.id = some rid) (hId : l.id = some lid)
    (hLt : l.updatedAt < r.updated.getD 0) :
    (SyncService.syncTasks [l] [r] nextId createRes now).1.tasks =
      [{ id := some lid, title := r.title, date := r.date, time := r.time, tags := r.tags,
         createdAt := r.created.getD now, updatedAt := now, done := r.done,
         usageCount := some (r.usageCount.getD 0),
         recurrence := some (r.recurrence.getD Recurrence.none),
         remoteId := some rid, synced := some true, lastSyncAt := some now }] := by
  rw [syncTasks_single_remote_newer l r rid lid nextId createRes now hL hR hId hLt]
  simp [pulledTask, hId, hR]

/-- Witness for C1 on the concrete scenario of the claim: local task 2
linked to r9 updated 2024-01-02 against remote r9 updated 2024-01-03,
reconciled at syncClock. -/
theorem C1_witness :
    (SyncService.syncTasks [task2] [remoteR9] 3 noTaskCreate syncClock).1.tasks =
      [{ id := some 2, title := "B", date := Option.none, time := Option.none, tags := [],
         createdAt := syncClock, updatedAt := syncClock, done := true,
         usageCount := some 0, recurrence := some Recurrence.none,
         remoteId := some "r9", synced := some true, lastSyncAt := some syncClock }] := by
  have h := C1_remote_newer_pull task2 remoteR9 "r9" 2 3 noTaskCreate syncClock
    rfl rfl rfl (by decide)
  simpa [remoteR9] using h

/-- C1 counterexample: on the claim's concrete scenario the reconciled
local task does get title B and synced true, but its updatedAt is the
reconciliation time, which differs from the remote 2024-01-03 timestamp
the claim requires. -/
theorem C1_counterexample :
    ((SyncService.syncTasks [task2] [remoteR9] 3 noTaskCreate syncClock).1.tasks.map
        Task.title = ["B"]) ∧
    ((SyncService.syncTasks [task2] [remoteR9] 3 noTaskCreate syncClock).1.tasks.map
        Task.synced = [some true]) ∧
    ((SyncService.syncTasks [task2] [remoteR9] 3 noTaskCreate syncClock).1.tasks.map
        Task.updatedAt = [syncClock]) ∧
    syncClock ≠ jan3msec := by
  exact ⟨by decide, by decide, by decide, by decide⟩

/-- Remote payload writes: updates or creates on the PocketBase
collection. -/
def isRemoteWriteEvent : SyncEvent → Bool
  | SyncEvent.pbUpdateTask _ _ => true
  | SyncEvent.pbCreateTask _ _ => true
  | _ => false

/-- C2 amended: reconcile is not idempotent. After a first run over a
linked pair with the remote strictly newer every local record is marked
synced, but because the local store stamped updatedAt with the first run
time, the unchanged remote copy now looks strictly older, so a second run
pushes the record back to the remote: a remote payload write. -/
theorem C2_second_run_pushes_back (l : Task) (r : PBTask) (rid : String)
    (lid nextId : Nat) (createRes : Task → Option String) (now1 now2 : Time)
    (hL : l.remoteId = some rid) (hR : r.id = some rid) (hId : l.id = some lid)
    (hLt : l.updatedAt < r.updated.getD 0) (hClock : r.updated.getD 0 < now1) :
    (∀ t ∈ (SyncService.syncTasks [l] [r] nextId createRes now1).1.tasks,
        t.synced = some true) ∧
    ((SyncService.syncTasks
        (SyncService.syncTasks [l] [r] nextId createRes now1).1.tasks [r]
        (SyncService.syncTasks [l] [r] nextId createRes now1).1.nextId
        createRes now2).2.any isRemoteWriteEvent = true) := by
  rw [syncTasks_single_remote_newer l r rid lid nextId createRes now1 hL hR hId hLt]
  constructor
  · intro t ht
    simp only [List.mem_singleton] at ht
    subst ht
    simp [pulledTask]
  · have h2 := syncTasks_single_local_newer (pulledTask l r now1) r rid lid nextId
      createRes now2 (by simp [pulledTask, hR]) hR (by simp [pulledTask, hId])
      (by simpa [pulledTask] using hClock)
    rw [h2]
    simp [isRemoteWriteEvent]

/-- C2 counterexample: on the concrete linked pair, after a first
reconciliation at syncClock a second reconciliation one minute later with
no intervening mutation performs a remote payload write (it pushes the
record back), so the second run is not change-free. -/
theorem C2_counterexample :
    ((SyncService.syncTasks [task2] [remoteR9] 3 noTaskCreate syncClock).1.tasks.all
        (fun t => t.synced == some true) = true) ∧
    ((SyncService.syncTasks
        (SyncService.syncTasks [task2] [remoteR9] 3 noTaskCreate syncClock).1.tasks [remoteR9]
        (SyncService.syncTasks [task2] [remoteR9] 3 noTaskCreate syncClock).1.nextId
        noTaskCreate (syncClock + 60000)).2.any isRemoteWriteEvent = true) := by
  exact ⟨by decide, by decide⟩

/-- Witness for C2 at the concrete linked pair and run times. -/
theorem C2_witness :
    (SyncService.syncTasks
        (SyncService.syncTasks [task2] [remoteR9] 3 noTaskCreate syncClock).1.tasks [remoteR9]
        (SyncService.syncTasks [task2] [remoteR9] 3 noTaskCreate syncClock).1.nextId
        noTaskCreate (syncClock + 60000)).2.any isRemoteWriteEvent = true :=
  (C2_second_run_pushes_back task2 remoteR9 "r9" 2 3 noTaskCreate syncClock
    (syncClock + 60000) rfl rfl rfl (by decide) (by decide)).2

/-- C10: completing a not-done task whose recurrence is not none marks it
done, bumps its usage count, and appends exactly one follow-up task with
the same title, time, tags and recurrence, done false, usageCount 0, and
a date one day past the base date for daily and seven days past for
weekly and custom (the base date being the task date, or today when the
task has none); toggling a done task back to not-done performs only the
done update and creates nothing. -/
theorem C10_toggle_recurring (db : LocalDB) (id : Nat) (now : Time) (today : Nat)
    (task : Task) (hGet : DatabaseService.getTask db id = some task)
    (hBound : id < db.nextId) :
    (task.done = false → ∀ r, task.recurrence = some r → r ≠ Recurrence.none →
      ∃ db2, DatabaseService.toggleTaskDone db id now today = Except.ok db2 ∧
        db2.tasks.length = db.tasks.length + 1 ∧
        (∀ t ∈ db2.tasks, t.id = some id →
          t.done = true ∧ t.usageCount = some (task.usageCount.getD 0 + 1)) ∧
        (∃ newT, db2.tasks.getLast? = some newT ∧ newT.title = task.title ∧
          newT.time = task.time ∧ newT.tags = task.tags ∧ newT.recurrence = some r ∧
          newT.done = false ∧ newT.usageCount = some 0 ∧
          newT.date = some (task.date.getD today +
            if r = Recurrence.daily then 1 else 7))) ∧
    (task.done = true →
      ∃ db2, DatabaseService.toggleTaskDone db id now today = Except.ok db2 ∧
        db2.tasks.length = db.tasks.length ∧
        (∀ t ∈ db2.tasks, t.id = some id → t.done = false)) := by
  constructor
  · intro hD r hRec hRne
    have hne : (task.recurrence.getD Recurrence.none != Recurrence.none) = true := by
      simp [hRec, bne_iff_ne, hRne]
    have hEq : DatabaseService.toggleTaskDone db id now today =
        Except.ok (DatabaseService.createRecurringTask
          (DatabaseService.updateTask db id
            { done := some true,
              usageCount := some (some (task.usageCount.getD 0 + 1)) } now)
          task now today) := by
      simp [DatabaseService.toggleTaskDone, hGet, hD, hne]
    refine ⟨_, hEq, ?_, ?_, ?_⟩
    · simp [DatabaseService.createRecurringTask, DatabaseService.createTask,
        DatabaseService.updateTask]
    · intro t ht hid
      simp only [DatabaseService.createRecurringTask, DatabaseService.createTask,
        DatabaseService.updateTask, List.mem_append, List.mem_map,
        List.mem_singleton] at ht
      rcases ht with ⟨a, _, rfl⟩ | rfl
      · by_cases h : a.id = some id
        · simp [h, applyTaskPatch, hD]
        · simp only [if_neg h] at hid
          exact absurd hid h
      · exfalso
        have hEqId : db.nextId = id := by simpa using hid
        omega
    · refine ⟨{ id := some db.nextId, title := task.title,
                date := some (DatabaseService.calculateNextDate task.date
                  (task.recurrence.getD Recurrence.none) today),
                time := task.time, tags := task.tags, createdAt := now, updatedAt := now,
                done := false, usageCount := some 0,
                recurrence := some (task.recurrence.getD Recurrence.none),
                remoteId := Option.none, synced := Option.none,
                lastSyncAt := Option.none }, ?_, rfl, rfl, rfl, ?_, rfl, rfl, ?_⟩
      · simp [DatabaseService.createRecurringTask, DatabaseService.createTask,
          DatabaseService.updateTask]
      · simp [hRec]
      · simp only [hRec, Option.getD_some, Option.some_inj]
        cases r with
        | none => exact absurd rfl hRne
        | daily => simp [DatabaseService.calculateNextDate]
        | weekly => simp [DatabaseService.calculateNextDate]
        | custom => simp [DatabaseService.calculateNextDate]
  · intro hD
    have hEq : DatabaseService.toggleTaskDone db id now today =
        Except.ok (DatabaseService.updateTask db id { done := some false } now) := by
      simp [DatabaseService.toggleTaskDone, hGet, hD]
    refine ⟨_, hEq, ?_, ?_⟩
    · simp [DatabaseService.updateTask]
    · intro t ht hid
      simp only [DatabaseService.updateTask, List.mem_map] at ht
      obtain ⟨a, _, rfl⟩ := ht
      by_cases h : a.id = some id
      · simp [h, applyTaskPatch, hD]
      · simp only [if_neg h] at hid
        exact absurd hid h

/-- Witness for C10: completing the daily task due on day 100 appends
one follow-up due on day 101 with the same payload. -/
theorem C10_witness :
    ∃ db2, DatabaseService.toggleTaskDone ⟨[dailyTask], 2⟩ 1 77 200 = Except.ok db2 ∧
      db2.tasks.length = 2 ∧
      (∀ t ∈ db2.tasks, t.id = some 1 → t.done = true ∧ t.usageCount = some 1) ∧
      (∃ newT, db2.tasks.getLast? = some newT ∧ newT.title = "Daily exercise" ∧
        newT.time = Option.none ∧ newT.tags = ["health"] ∧
        newT.recurrence = some Recurrence.daily ∧ newT.done = false ∧
        newT.usageCount = some 0 ∧ newT.date = some 101) :=
  (C10_toggle_recurring ⟨[dailyTask], 2⟩ 1 77 200 dailyTask rfl (by decide)).1
    rfl Recurrence.daily rfl (by decide)

/-- Events that belong to the upload loop over local-only records (Case
C): remote creates, the console log of a failed upload, and the local
write that links a freshly uploaded record (a patch that sets remoteId
without carrying a payload title). -/
def isUploadPhaseEvent : SyncEvent → Bool
  | SyncEvent.pbCreateTask _ _ => true
  | SyncEvent.consoleErrorUploadTask => true
  | SyncEvent.dbUpdateTask _ p => p.remoteId.isSome && p.title.isNone
  | _ => false

/-- Every operation of one remote-loop iteration is a Case A or Case B
operation, never an upload-loop operation. -/
theorem syncTaskRemoteStep_events (lookup : String → Option Task) (now : Time)
    (db : LocalDB) (r : PBTask) :
    ∀ e ∈ (SyncService.syncTaskRemoteStep lookup now db r).2,
      isUploadPhaseEvent e = false := by
  intro e he
  unfold SyncService.syncTaskRemoteStep at he
  cases hr : r.id with
  | none => simp [hr] at he
  | some rid =>
    simp only [hr] at he
    cases hl : lookup rid with
    | none =>
      simp only [hl] at he
      simp only [List.mem_singleton] at he
      subst he
      rfl
    | some lt =>
      simp only [hl] at he
      split at he
      · rcases List.mem_pair.mp he with rfl | rfl
        · rfl
        · simp [isUploadPhaseEvent, markSyncedTaskPatch]
      · split at he
        · simp only [List.mem_singleton] at he
          subst he
          simp [isUploadPhaseEvent, SyncService.taskFromRemote]
        · simp only [List.mem_singleton] at he
          subst he
          simp [isUploadPhaseEvent, markSyncedTaskPatch]

/-- Every operation emitted by the remote loop is a Case A or Case B
operation. -/
theorem syncTasksRemotePhase_events (lookup : String → Option Task) (now : Time) :
    ∀ (rs : List PBTask) (db : LocalDB),
      ∀ e ∈ (SyncService.syncTasksRemotePhase lookup now db rs).2,
        isUploadPhaseEvent e = false := by
  intro rs
  induction rs with
  | nil => intro db e he; simp [SyncService.syncTasksRemotePhase] at he
  | cons r rs ih =>
    intro db e he
    simp only [SyncService.syncTasksRemotePhase, List.mem_append] at he
    rcases he with he | he
    · exact syncTaskRemoteStep_events lookup now db r e he
    · exact ih _ e he

/-- Every operation of one upload-loop iteration is an upload-loop
operation. -/
theorem uploadLocalTaskStep_events (createRes : Task → Option String) (now : Time)
    (db : LocalDB) (t : Task) :
    ∀ e ∈ (SyncService.uploadLocalTaskStep createRes now db t).2,
      isUploadPhaseEvent e = true := by
  intro e he
  unfold SyncService.uploadLocalTaskStep at he
  cases hc : createRes t with
  | none =>
    simp only [hc] at he
    rcases List.mem_pair.mp he with rfl | rfl
    · rfl
    · rfl
  | some rid =>
    simp only [hc] at he
    cases hi : t.id with
    | none =>
      simp only [hi, List.mem_singleton] at he
      subst he
      rfl
    | some lid =>
      simp only [hi] at he
      rcases List.mem_pair.mp he with rfl | rfl
      · rfl
      · simp [isUploadPhaseEvent, linkTaskPatch]

/-- Every operation emitted by the upload loop is an upload-loop
operation. -/
theorem syncTasksUploadPhase_events (createRes : Task → Option String) (now : Time) :
    ∀ (ts : List Task) (db : LocalDB),
      ∀ e ∈ (SyncService.syncTasksUploadPhase createRes now db ts).2,
        isUploadPhaseEvent e = true := by
  intro ts
  induction ts with
  | nil => intro db e he; simp [SyncService.syncTasksUploadPhase] at he
  | cons t ts ih =>
    intro db e he
    simp only [SyncService.syncTasksUploadPhase, List.mem_append] at he
    rcases he with he | he
    · exact uploadLocalTaskStep_events createRes now db t e he
    · exact ih _ e he

/-- C8: within one syncTasks call the operation trace splits into a
prefix of Case A and Case B operations (remote-record processing) and a
suffix of Case C operations (local-unlinked uploads): all remote-record
processing completes before any upload happens. -/
theorem C8_remote_processing_first (localTasks : List Task) (remoteTasks : List PBTask)
    (nextId : Nat) (createRes : Task → Option String) (now : Time) :
    ∃ evAB evC,
      (SyncService.syncTasks localTasks remoteTasks nextId createRes now).2 =
          evAB ++ evC ∧
        (∀ e ∈ evAB, isUploadPhaseEvent e = false) ∧
        (∀ e ∈ evC, isUploadPhaseEvent e = true) :=
  ⟨_, _, rfl,
    syncTasksRemotePhase_events (localTaskByRemoteId localTasks) now remoteTasks _,
    syncTasksUploadPhase_events createRes now _ _⟩

/-- A present Option is some of its default extraction. -/
theorem optionEqSomeGetD {o : Option Nat} (h : o.isSome = true) : o = some (o.getD 0) := by
  cases o with
  | none => simp at h
  | some a => rfl

/-- A hit in the localByRemoteId map is a snapshot member carrying that
remote id. -/
theorem localTaskByRemoteId_spec (l : List Task) (rid : String) (u : Task)
    (h : localTaskByRemoteId l rid = some u) : u ∈ l ∧ u.remoteId = some rid := by
  unfold localTaskByRemoteId at h
  obtain ⟨hne, hx⟩ := List.mem_getLast?_eq_getLast h
  have hmem : u ∈ l.filter fun v => v.remoteId = some rid := by
    rw [hx]
    exact List.getLast_mem hne
  have := List.mem_filter.mp hmem
  exact ⟨this.1, by simpa using this.2⟩

/-- updateTask at a key other than the one t carries leaves t present and
still the unique owner of its key. -/
theorem updateTask_keeps_other (t : Task) (db : LocalDB) (id' : Nat) (p : TaskPatch)
    (now : Time) (hne : some id' ≠ t.id)
    (hmem : t ∈ db.tasks) (huniq : ∀ u ∈ db.tasks, u.id = t.id → u = t) :
    t ∈ (DatabaseService.updateTask db id' p now).tasks ∧
    (∀ u ∈ (DatabaseService.updateTask db id' p now).tasks, u.id = t.id → u = t) := by
  constructor
  · refine List.mem_map.mpr ⟨t, hmem, ?_⟩
    have h : ¬ (t.id = some id') := fun h => hne h.symm
    simp [h]
  · intro u hu hid
    obtain ⟨a, ha, rfl⟩ := List.mem_map.mp hu
    by_cases h : a.id = some id'
    · exfalso
      rw [if_pos h, applyTaskPatch_id] at hid
      rw [h] at hid
      exact hne hid
    · rw [if_neg h] at hid ⊢
      exact huniq a ha hid

/-- createTask leaves t present, the unique owner of its key (the fresh
record gets the auto id, above every stored id), and keeps its id below
the grown counter. -/
theorem createTask_keeps_other (t : Task) (db : LocalDB) (nt : NewTask) (now : Time)
    (hsome : t.id.isSome = true) (hlt : t.id.getD 0 < db.nextId)
    (hmem : t ∈ db.tasks) (huniq : ∀ u ∈ db.tasks, u.id = t.id → u = t) :
    t ∈ (DatabaseService.createTask db nt now).tasks ∧
    (∀ u ∈ (DatabaseService.createTask db nt now).tasks, u.id = t.id → u = t) ∧
    t.id.getD 0 < (DatabaseService.createTask db nt now).nextId := by
  refine ⟨List.mem_append_left _ hmem, ?_, ?_⟩
  · intro u hu hid
    simp only [DatabaseService.createTask, List.mem_append, List.mem_singleton] at hu
    rcases hu with hu | hu
    · exact huniq u hu hid
    · exfalso
      subst hu
      rw [optionEqSomeGetD hsome] at hid
      simp only [Option.some_inj] at hid
      omega
  · simp only [DatabaseService.createTask]
    omega

/-- One remote-loop iteration leaves an unlinked snapshot record t
untouched: t stays present and the unique owner of its key, and its id
stays below the counter. -/
theorem syncTaskRemoteStep_keeps_unlinked (localTasks : List Task) (now : Time)
    (db : LocalDB) (r : PBTask) (t : Task)
    (hRem : t.remoteId = Option.none)
    (hids : ∀ u ∈ localTasks, u.id.isSome = true)
    (hnodup : localTasks.Pairwise fun a b => a.id ≠ b.id)
    (htmem : t ∈ localTasks)
    (hmem : t ∈ db.tasks) (huniq : ∀ u ∈ db.tasks, u.id = t.id → u = t)
    (hlt : t.id.getD 0 < db.nextId) :
    t ∈ (SyncService.syncTaskRemoteStep (localTaskByRemoteId localTasks) now db r).1.tasks ∧
    (∀ u ∈ (SyncService.syncTaskRemoteStep (localTaskByRemoteId localTasks)
        now db r).1.tasks, u.id = t.id → u = t) ∧
    t.id.getD 0 <
      (SyncService.syncTaskRemoteStep (localTaskByRemoteId localTasks) now db r).1.nextId := by
  cases hr : r.id with
  | none =>
    simp only [SyncService.syncTaskRemoteStep, hr]
    exact ⟨hmem, huniq, hlt⟩
  | some rid =>
    cases hl : localTaskByRemoteId localTasks rid with
    | none =>
      simp only [SyncService.syncTaskRemoteStep, hr, hl]
      have hsome := hids t htmem
      exact createTask_keeps_other t db _ now hsome hlt hmem huniq
    | some lt =>
      obtain ⟨hltmem, hltrid⟩ := localTaskByRemoteId_spec localTasks rid lt hl
      have hlt_ne_t : lt ≠ t := by
        intro h
        rw [h, hRem] at hltrid
        exact Option.noConfusion hltrid
      have hSymm : Symmetric fun a b : Task => a.id ≠ b.id := fun a b h e => h e.symm
      have hid_ne : lt.id ≠ t.id := hnodup.forall hSymm hltmem htmem hlt_ne_t
      have hkey : some (lt.id.getD 0) ≠ t.id := by
        rw [← optionEqSomeGetD (hids lt hltmem)]
        exact hid_ne
      simp only [SyncService.syncTaskRemoteStep, hr, hl]
      split
      · have h := updateTask_keeps_other t db (lt.id.getD 0) (markSyncedTaskPatch now)
          now hkey hmem huniq
        exact ⟨h.1, h.2, hlt⟩
      · split
        · have h := updateTask_keeps_other t db (lt.id.getD 0)
            (SyncService.taskFromRemote r lt.id now) now hkey hmem huniq
          exact ⟨h.1, h.2, hlt⟩
        · have h := updateTask_keeps_other t db (lt.id.getD 0) (markSyncedTaskPatch now)
            now hkey hmem huniq
          exact ⟨h.1, h.2, hlt⟩

/-- The whole remote loop leaves an unlinked snapshot record t
untouched. -/
theorem syncTasksRemotePhase_keeps_unlinked (localTasks : List Task) (now : Time)
    (t : Task) (hRem : t.remoteId = Option.none)
    (hids : ∀ u ∈ localTasks, u.id.isSome = true)
    (hnodup : localTasks.Pairwise fun a b => a.id ≠ b.id)
    (htmem : t ∈ localTasks) :
    ∀ (rs : List PBTask) (db : LocalDB),
      t ∈ db.tasks → (∀ u ∈ db.tasks, u.id = t.id → u = t) →
      t.id.getD 0 < db.nextId →
      t ∈ (SyncService.syncTasksRemotePhase (localTaskByRemoteId localTasks)
          now db rs).1.tasks ∧
      (∀ u ∈ (SyncService.syncTasksRemotePhase (localTaskByRemoteId localTasks)
          now db rs).1.tasks, u.id = t.id → u = t) ∧
      t.id.getD 0 <
        (SyncService.syncTasksRemotePhase (localTaskByRemoteId localTasks)
          now db rs).1.nextId := by
  intro rs
  induction rs with
  | nil => intro db hmem huniq hlt; exact ⟨hmem, huniq, hlt⟩
  | cons r rs ih =>
    intro db hmem huniq hlt
    have hstep := syncTaskRemoteStep_keeps_unlinked localTasks now db r t hRem hids
      hnodup htmem hmem huniq hlt
    exact ih _ hstep.1 hstep.2.1 hstep.2.2

/-- The upload loop: an unlinked record whose create rejects stays
untouched and unique at its key, every record in the loop gets its
create attempted (so the batch never aborts), and a rejected create of t
leaves a console error log in the trace. -/
theorem syncTasksUploadPhase_spec (localTasks : List Task)
    (createRes : Task → Option String) (now : Time) (t : Task)
    (hfail : createRes t = Option.none)
    (hids : ∀ u ∈ localTasks, u.id.isSome = true)
    (hnodup : localTasks.Pairwise fun a b => a.id ≠ b.id)
    (htmem : t ∈ localTasks) :
    ∀ (us : List Task) (db : LocalDB), (∀ u ∈ us, u ∈ localTasks) →
      t ∈ db.tasks → (∀ u ∈ db.tasks, u.id = t.id → u = t) →
      (t ∈ (SyncService.syncTasksUploadPhase createRes now db us).1.tasks ∧
        ∀ u ∈ (SyncService.syncTasksUploadPhase createRes now db us).1.tasks,
          u.id = t.id → u = t) ∧
      (∀ u ∈ us, SyncEvent.pbCreateTask (SyncService.taskToRemote u) (createRes u) ∈
        (SyncService.syncTasksUploadPhase createRes now db us).2) ∧
      (t ∈ us → SyncEvent.consoleErrorUploadTask ∈
        (SyncService.syncTasksUploadPhase createRes now db us).2) := by
  intro us
  induction us with
  | nil =>
    intro db _ hmem huniq
    refine ⟨⟨hmem, huniq⟩, ?_, ?_⟩
    · intro u hu; exact absurd hu (List.not_mem_nil u)
    · intro hu; exact absurd hu (List.not_mem_nil t)
  | cons u us ih =>
    intro db hus hmem huniq
    have hu_local : u ∈ localTasks := hus u (List.mem_cons_self u us)
    have hstep : t ∈ (SyncService.uploadLocalTaskStep createRes now db u).1.tasks ∧
        ∀ v ∈ (SyncService.uploadLocalTaskStep createRes now db u).1.tasks,
          v.id = t.id → v = t := by
      unfold SyncService.uploadLocalTaskStep
      cases hc : createRes u with
      | none => exact ⟨hmem, huniq⟩
      | some rid =>
        cases hi : u.id with
        | none => exact ⟨hmem, huniq⟩
        | some lid =>
          have hu_ne_t : u ≠ t := by
            intro h
            rw [h, hfail] at hc
            exact Option.noConfusion hc
          have hSymm : Symmetric fun a b : Task => a.id ≠ b.id := fun a b h e => h e.symm
          have hid_ne : u.id ≠ t.id := hnodup.forall hSymm hu_local htmem hu_ne_t
          have hkey : some lid ≠ t.id := by rw [← hi]; exact hid_ne
          exact updateTask_keeps_other t db lid (linkTaskPatch rid now) now hkey hmem huniq
    have hrest := ih _ (fun v hv => hus v (List.mem_cons_of_mem u hv)) hstep.1 hstep.2
    refine ⟨hrest.1, ?_, ?_⟩
    · intro v hv
      simp only [SyncService.syncTasksUploadPhase, List.mem_append]
      rcases List.mem_cons.mp hv with rfl | hv
      · left
        unfold SyncService.uploadLocalTaskStep
        cases hc : createRes v with
        | none => simp
        | some rid =>
          cases hi : v.id with
          | none => simp
          | some lid => simp
      · right
        exact hrest.2.1 v hv
    · intro htin
      simp only [SyncService.syncTasksUploadPhase, List.mem_append]
      rcases List.mem_cons.mp htin with rfl | htin
      · left
        unfold SyncService.uploadLocalTaskStep
        rw [hfail]
        simp
      · right
        exact hrest.2.2 htin

/-- C6 amended: when the remote create of an unlinked local record
rejects, the record is left completely unchanged (still unlinked, still
the unique owner of its id), the batch continues (every unlinked record
in the snapshot still gets its create attempted), and the individual
failure is only recorded as a console error log in the trace; syncTasks
resolves with void, so no count or list of per-record failures is
returned to the caller. -/
theorem C6_upload_failure_isolated (localTasks : List Task) (remoteTasks : List PBTask)
    (nextId : Nat) (createRes : Task → Option String) (now : Time) (t : Task)
    (htmem : t ∈ localTasks) (hunlinked : t.remoteId = Option.none)
    (hfail : createRes t = Option.none)
    (hids : ∀ u ∈ localTasks, u.id.isSome = true)
    (hbound : ∀ u ∈ localTasks, u.id.getD 0 < nextId)
    (hnodup : localTasks.Pairwise fun a b => a.id ≠ b.id) :
    (t ∈ (SyncService.syncTasks localTasks remoteTasks nextId createRes now).1.tasks ∧
      ∀ u ∈ (SyncService.syncTasks localTasks remoteTasks nextId createRes now).1.tasks,
        u.id = t.id → u = t) ∧
    (∀ u ∈ localTasks, u.remoteId = Option.none →
      SyncEvent.pbCreateTask (SyncService.taskToRemote u) (createRes u) ∈
        (SyncService.syncTasks localTasks remoteTasks nextId createRes now).2) ∧
    SyncEvent.consoleErrorUploadTask ∈
      (SyncService.syncTasks localTasks remoteTasks nextId createRes now).2 := by
  have hSymm : Symmetric fun a b : Task => a.id ≠ b.id := fun a b h e => h e.symm
  have huniq0 : ∀ u ∈ localTasks, u.id = t.id → u = t := by
    intro u hu hid
    by_contra hne
    exact hnodup.forall hSymm hu htmem hne hid
  have hAB := syncTasksRemotePhase_keeps_unlinked localTasks now t hunlinked hids hnodup
    htmem remoteTasks ⟨localTasks, nextId⟩ htmem huniq0 (hbound t htmem)
  have hfilter_sub : ∀ u ∈ localTasks.filter (fun v => v.remoteId = Option.none),
      u ∈ localTasks := fun u hu => (List.mem_filter.mp hu).1
  have hC := syncTasksUploadPhase_spec localTasks createRes now t hfail hids hnodup htmem
    (localTasks.filter fun v => v.remoteId = Option.none) _ hfilter_sub hAB.1 hAB.2.1
  have htfilter : t ∈ localTasks.filter fun v => v.remoteId = Option.none :=
    List.mem_filter.mpr ⟨htmem, by simp [hunlinked]⟩
  refine ⟨hC.1, ?_, ?_⟩
  · intro u hu hurem
    have hufilter : u ∈ localTasks.filter fun v => v.remoteId = Option.none :=
      List.mem_filter.mpr ⟨hu, by simp [hurem]⟩
    exact List.mem_append_right _ (hC.2.1 u hufilter)
  · exact List.mem_append_right _ (hC.2.2 htfilter)

/-- C6 counterexample: the complete observable outcome of a run in which
the only unlinked record's remote create rejects. The local store is
returned unchanged and the only trace of the failure is the console error
log; the operation resolves with void and produces no count or list of
per-record failures anywhere in its outcome, so the failure-reporting
part of the claim does not hold. -/
theorem C6_counterexample :
    (SyncService.syncTasks [buyMilk] [] 2 noTaskCreate 50).1 = ⟨[buyMilk], 2⟩ ∧
    (SyncService.syncTasks [buyMilk] [] 2 noTaskCreate 50).2 =
      [SyncEvent.pbCreateTask (SyncService.taskToRemote buyMilk) Option.none,
       SyncEvent.consoleErrorUploadTask] :=
  ⟨by decide, by decide⟩

/-- Witness for C6: buyMilk fails to upload and is left untouched while
secondTask still gets its create attempted. -/
theorem C6_witness :
    (buyMilk ∈ (SyncService.syncTasks [buyMilk, secondTask] [] 8 createFailsFirst 50).1.tasks ∧
      ∀ u ∈ (SyncService.syncTasks [buyMilk, secondTask] [] 8 createFailsFirst 50).1.tasks,
        u.id = buyMilk.id → u = buyMilk) ∧
    (∀ u ∈ [buyMilk, secondTask], u.remoteId = Option.none →
      SyncEvent.pbCreateTask (SyncService.taskToRemote u) (createFailsFirst u) ∈
        (SyncService.syncTasks [buyMilk, secondTask] [] 8 createFailsFirst 50).2) ∧
    SyncEvent.consoleErrorUploadTask ∈
      (SyncService.syncTasks [buyMilk, secondTask] [] 8 createFailsFirst 50).2 :=
  C6_upload_failure_isolated [buyMilk, secondTask] [] 8 createFailsFirst 50 buyMilk
    (by decide) rfl (by decide) (by decide) (by decide) (by decide)

/-- Witness for C8 on a concrete mixed scenario: one linked pair plus one
unlinked upload. -/
theorem C8_witness :
    ∃ evAB evC,
      (SyncService.syncTasks [task2, buyMilk] [remoteR9] 3 createFailsFirst syncClock).2 =
          evAB ++ evC ∧
        (∀ e ∈ evAB, isUploadPhaseEvent e = false) ∧
        (∀ e ∈ evC, isUploadPhaseEvent e = true) :=
  C8_remote_processing_first [task2, buyMilk] [remoteR9] 3 createFailsFirst syncClock

end Taskdown
